import Mathlib

/-!
Shallow embedding of the session supervisor of `src/sessions.js` together with
the helpers it uses from `src/utils.js` (isEventEnabled, waitForNestedObject,
triggerWebhook, sendMessageSeenStatus).  External behaviour of the third-party
protocol client (initialize, getState, logout, destroy, the puppeteer page and
browser) is modelled as an oracle recorded in the `Client` structure: each field
scripts the outcome the external component would produce when the embedded code
calls it.  Side effects are recorded in an `Action` trace.
-/

deriving instance DecidableEq for Except

/-- Outcome of one iteration of the probe loop of validateSession
(`sessions.js` lines 27-44).  Each iteration first calls
`client.pupPage.isClosed()` and then races `client.pupPage.evaluate('1')`
against a 1-second timer that resolves:
* `closed`   : isClosed() returned true (the loop returns "browser tab closed");
* `responds` : evaluate settled successfully within the timer;
* `hangs`    : evaluate did not settle within 1 second, so the resolving timer
  wins the race and the loop breaks exactly as in the `responds` case;
* `throws`   : isClosed() or evaluate threw (also the case where
  `client.pupPage` is still undefined after waitForNestedObject timed out,
  because its rejection is swallowed by the `.catch` on line 24), which is
  caught and retried until `maxRetry === 2`. -/
inductive ProbeOutcome
  | closed
  | responds
  | hangs
  | throws
deriving DecidableEq

/-- Oracle for one external protocol client instance. -/
structure Client where
  /-- result of `client.initialize()` -/
  initResult : Except String Unit
  /-- probe outcome of attempt `i` of the validateSession loop -/
  attempts : Nat → ProbeOutcome
  /-- result of `client.getState()` -/
  stateResult : Except String String
  /-- result of `client.logout()` -/
  logoutResult : Except String Unit
  /-- result of `client.destroy()` -/
  destroyResult : Except String Unit
  /-- `client.pupBrowser`; `none` models the property being undefined, in which
  case the unguarded `client.pupBrowser.isConnected()` on line 542 throws.
  `some f` gives the value of `isConnected()` at poll number `i`. -/
  pupBrowser : Option (Nat → Bool)

/-- The module-level `sessions` Map, as an association list. -/
abbrev Registry : Type := List (String × Client)

/-- `sessions.get(id)`. -/
def Registry.get : Registry → String → Option Client
  | [], _ => none
  | (k, v) :: rest, id => if k = id then some v else Registry.get rest id

/-- `sessions.has(id)` (the registry never stores falsy values). -/
def Registry.has (r : Registry) (id : String) : Bool :=
  (Registry.get r id).isSome

/-- `sessions.set(id, c)`: replace the binding if the key is present,
otherwise append it. -/
def Registry.set (r : Registry) (id : String) (c : Client) : Registry :=
  if Registry.has r id then
    r.map (fun p => if p.1 = id then (id, c) else p)
  else
    r ++ [(id, c)]

/-- `sessions.delete(id)`. -/
def Registry.del (r : Registry) (id : String) : Registry :=
  r.filter (fun p => p.1 != id)

/-- The `returnData` object produced by validateSession
(`{success, state, message}`). -/
structure ValidationResult where
  success : Bool
  state : Option String
  message : String
deriving DecidableEq

/-- Observable side effects of the supervisor, in program order.
`clientInit` records a call of the initialize method of the external client. -/
inductive Act
  | clientInit (id : String)
  | initWebSocket (id : String)
  | bindEvents (id : String)
  | terminateWebSocket (id : String)
  | logout (id : String)
  | destroy (id : String)
  | rmFolder (p : List String)
  | webhook (sessionId category : String)
  | websocket (sessionId category : String)
  | downloadMedia
  | sendSeen
deriving DecidableEq

/-- The `while (true)` probe loop of validateSession, lines 27-44.  `i` is the
attempt index, `budget` the number of further caught errors allowed before the
`maxRetry === 2` branch fires (the counter starts at 0, so the initial budget
is 2 and in total three throwing attempts produce the failure).  Returns
`some msg` when the loop returns early with a failure message and `none` when
it breaks and falls through to `getState`. -/
def probeLoop (att : Nat → ProbeOutcome) : Nat → Nat → Option String
  | i, budget =>
    match att i, budget with
    | .closed, _ => some "browser tab closed"
    | .responds, _ => none
    | .hangs, _ => none
    | .throws, 0 => some "session closed"
    | .throws, b + 1 => probeLoop att (i + 1) b

/-- validateSession (`sessions.js` lines 11-61). -/
def validateSession (reg : Registry) (sessionId : String) : ValidationResult :=
  match Registry.get reg sessionId with
  | none => ⟨false, none, "session_not_found"⟩
  | some client =>
    match probeLoop client.attempts 0 2 with
    | some msg => ⟨false, none, msg⟩
    | none =>
      match client.stateResult with
      | .error e => ⟨false, none, e⟩
      | .ok s =>
        if s = "CONNECTED" then ⟨true, some s, "session_connected"⟩
        else ⟨false, some s, "session_not_connected"⟩

/-!
Filesystem and path model for deleteSessionFolder (`sessions.js` lines
441-459).  Absolute paths are lists of components; the filesystem is the list
of directories that exist.  `path.join(sessionFolderPath, ...)` normalizes
`..` and `.` segments textually; `fs.promises.realpath` resolves an existing
path (no symlinks in the model) and rejects with ENOENT on an absent one.
-/

/-- Errors deleteSessionFolder can reject with. -/
inductive FolderError
  | enoent
  | traversal
deriving DecidableEq

/-- The `message` of the error deleteSessionFolder rejects with (the ENOENT
rejection of `fs.promises.realpath`, or the `Invalid path` Error thrown on
line 452), as observed by the catch in deleteSession. -/
def folderErrName : FolderError → String
  | .enoent => "ENOENT"
  | .traversal => "Invalid path: Directory traversal detected"

/-- Textual normalization performed by `path.join`: empty and `.` segments are
dropped, `..` pops the last component (a no-op at the root, as in
`path.normalize`). -/
def normalizeComps (acc : List String) : List String → List String
  | [] => acc
  | c :: rest =>
    if c = "" ∨ c = "." then normalizeComps acc rest
    else if c = ".." then normalizeComps acc.dropLast rest
    else normalizeComps (acc ++ [c]) rest

/-- Splitting a path string on the separator, character by character. -/
def splitSlashAux : List Char → List Char → List String
  | [], acc => [String.mk acc.reverse]
  | c :: rest, acc =>
    if c = '/' then String.mk acc.reverse :: splitSlashAux rest []
    else splitSlashAux rest (c :: acc)

/-- Components of a path string (split on the separator). -/
def splitSlash (s : String) : List String := splitSlashAux s.data []

/-- The components of `path.join(sessionFolderPath, 'session-' + sessionId)`,
with `root` the (already resolved) components of the storage root.  The id may
contain separators and dot segments, which `path.join` normalizes. -/
def sessionTarget (root : List String) (sessionId : String) : List String :=
  normalizeComps root (splitSlash ("session-" ++ sessionId))

/-- `fs.promises.realpath` over the model filesystem: identity on an existing
path, ENOENT otherwise. -/
def realpathFs (fsys : List (List String)) (p : List String) :
    Except FolderError (List String) :=
  if p ∈ fsys then .ok p else .error .enoent

/-- The check `resolvedTargetDirPath.startsWith(resolvedSessionPath + path.sep)`
on normalized absolute component lists: the root is a strict prefix of the
target. -/
def strictlyInside (root target : List String) : Bool :=
  root.isPrefixOf target && root != target

/-- deleteSessionFolder (`sessions.js` lines 441-459).  Returns the result
(on success, the resolved directory handed to `fs.promises.rm`; every caught
error is logged and rethrown, line 457) and the filesystem after the call.
`fs.promises.rm(..., {recursive:true, force:true})` removes the resolved
directory and everything below it and cannot fail on an existing directory. -/
def deleteSessionFolder (root : List String) (fsys : List (List String))
    (sessionId : String) :
    Except FolderError (List String) × List (List String) :=
  let target := sessionTarget root sessionId
  match realpathFs fsys target with
  | .error e => (.error e, fsys)
  | .ok resolvedTarget =>
    match realpathFs fsys root with
    | .error e => (.error e, fsys)
    | .ok resolvedRoot =>
      if strictlyInside resolvedRoot resolvedTarget then
        (.ok resolvedTarget, fsys.filter (fun p => !resolvedTarget.isPrefixOf p))
      else
        (.error .traversal, fsys)

/-- Shared mutable state: the sessions Map and the on-disk folders. -/
structure SysState where
  reg : Registry
  fsys : List (List String)

/-- Result of deleteSession: the thrown-or-returned outcome, the state after
the call, and the trace of external calls. -/
structure DeleteOut where
  res : Except String Unit
  st : SysState
  trace : List Act

/-- deleteSession (`sessions.js` lines 518-552).  An unknown id returns at
once (line 521-523).  terminateWebSocketServer failures are caught and logged
(lines 526-530).  `client.logout()` is issued exactly when
`validation.success` is true and `client.destroy()` exactly when
`validation.message === 'session_not_connected'` (lines 531-539); an error
from either propagates through the outer catch with the registry unchanged.
The ten-second disconnect poll (lines 540-545) has no effect in the model
except that `client.pupBrowser.isConnected()` throws when `pupBrowser` is
undefined.  Only then is the id removed from the Map (line 546) and the folder
removed (line 547); a folder-removal error propagates after the Map removal. -/
def deleteSession (root : List String) (st : SysState) (sessionId : String)
    (validation : ValidationResult) : DeleteOut :=
  match Registry.get st.reg sessionId with
  | none => ⟨.ok (), st, []⟩
  | some client =>
    let t0 : List Act := [.terminateWebSocket sessionId]
    let branch : Except String Unit × List Act :=
      if validation.success then
        match client.logoutResult with
        | .ok _ => (.ok (), [.logout sessionId])
        | .error e => (.error e, [.logout sessionId])
      else if validation.message = "session_not_connected" then
        match client.destroyResult with
        | .ok _ => (.ok (), [.destroy sessionId])
        | .error e => (.error e, [.destroy sessionId])
      else (.ok (), [])
    match branch with
    | (.error e, acts) => ⟨.error e, st, t0 ++ acts⟩
    | (.ok _, acts) =>
      match client.pupBrowser with
      | none => ⟨.error "TypeError: client.pupBrowser is undefined", st, t0 ++ acts⟩
      | some _ =>
        let reg2 := Registry.del st.reg sessionId
        match deleteSessionFolder root st.fsys sessionId with
        | (.ok rt, fsys2) =>
          ⟨.ok (), ⟨reg2, fsys2⟩, t0 ++ acts ++ [.rmFolder rt]⟩
        | (.error fe, fsys2) =>
          ⟨.error (folderErrName fe), ⟨reg2, fsys2⟩, t0 ++ acts⟩

/-- The object returned by setupSession
(`{success, message, client}`). -/
structure SetupResult where
  success : Bool
  message : String
  client : Option Client

/-- Result of setupSession: returned object, registry after the call, trace. -/
structure SetupOut where
  res : SetupResult
  reg : Registry
  trace : List Act

/-- setupSession (`sessions.js` lines 88-195).  If the Map already holds the
id the function returns the `already exists` failure at once with the existing
client and performs no external call (lines 90-92).  Otherwise it builds the
client options and a fresh `Client` (modelled by the oracle `newClient`
argument) and awaits `client.initialize()` (line 180): on rejection the error
is rethrown into the outer catch, which turns it into a failure result (line
193) with the Map untouched.  Only after a successful initialize are the
WebSocket server started, the event listeners bound, and the client stored in
the Map (lines 186-190).  The stale-SingletonLock cleanup (lines 169-177) and
the puppeteer/webVersion option assembly have no observable effect on the
registry or the trace and are not modelled. -/
def setupSession (reg : Registry) (sessionId : String) (newClient : Client) :
    SetupOut :=
  if Registry.has reg sessionId then
    ⟨⟨false, "Session already exists for: " ++ sessionId,
      Registry.get reg sessionId⟩, reg, []⟩
  else
    match newClient.initResult with
    | .error e => ⟨⟨false, e, none⟩, reg, [.clientInit sessionId]⟩
    | .ok _ =>
      ⟨⟨true, "Session initiated successfully", some newClient⟩,
       Registry.set reg sessionId newClient,
       [.clientInit sessionId, .initWebSocket sessionId,
        .bindEvents sessionId]⟩

/-!
flushSessions (`sessions.js` lines 555-575).  `fs.promises.readdir` lists the
names of the direct children of the storage root; each name matching
`/^session-(.+)$/` is validated and, unless `deleteOnlyInactive` is set and
the validation succeeded, deleted.  There is no per-item catch: the outer
catch logs the first error and rethrows it, so the remaining folders are not
processed.
-/

/-- Matching a folder name against `/^session-(.+)$/`: the captured id, or
`none` when the name does not match. -/
def parseSessionFolder (name : String) : Option String :=
  match name.data with
  | 's' :: 'e' :: 's' :: 's' :: 'i' :: 'o' :: 'n' :: '-' :: rest =>
    if rest.isEmpty then none else some (String.mk rest)
  | _ => none

/-- Names of the direct children of `root` in the model filesystem
(`fs.promises.readdir(sessionFolderPath)`). -/
def readdirNames (fsys : List (List String)) (root : List String) :
    List String :=
  fsys.filterMap (fun p =>
    if p.length = root.length + 1 ∧ root.isPrefixOf p then p.getLast? else none)

/-- Result of flushSessions. -/
structure FlushOut where
  res : Except String Unit
  st : SysState
  trace : List Act

/-- The `for (const file of files)` loop of flushSessions (lines 560-570),
over the folder names read once at the start.  The first deleteSession that
throws aborts the loop and its error propagates. -/
def flushLoop (root : List String) (st : SysState) (deleteOnlyInactive : Bool) :
    List String → FlushOut
  | [] => ⟨.ok (), st, []⟩
  | file :: rest =>
    match parseSessionFolder file with
    | none => flushLoop root st deleteOnlyInactive rest
    | some sessionId =>
      let validation := validateSession st.reg sessionId
      if !deleteOnlyInactive || !validation.success then
        match deleteSession root st sessionId validation with
        | ⟨.error e, st2, acts⟩ => ⟨.error e, st2, acts⟩
        | ⟨.ok _, st2, acts⟩ =>
          let out := flushLoop root st2 deleteOnlyInactive rest
          ⟨out.res, out.st, acts ++ out.trace⟩
      else flushLoop root st deleteOnlyInactive rest

/-- flushSessions (`sessions.js` lines 555-575).  readdir itself rejects when
the storage root is absent; that error is also rethrown. -/
def flushSessions (root : List String) (st : SysState)
    (deleteOnlyInactive : Bool) : FlushOut :=
  if root ∈ st.fsys then
    flushLoop root st deleteOnlyInactive (readdirNames st.fsys root)
  else
    ⟨.error "ENOENT", st, []⟩

/-!
Event router model, initializeEvents (`sessions.js` lines 197-438) together
with `isEventEnabled` from `src/utils.js`.  Listener binding happens once,
when initializeEvents runs during setup; most categories are bound only when
`isEventEnabled(category)` holds at that moment.  The `message` listener
(line 306) and the `qr` listener (line 378) are bound unconditionally and call
`isEventEnabled` again inside the handler, at event time.  `isEventEnabled`
reads the `disabledCallbacks` array each time it is called, so those two
handlers observe the configuration current when the event fires, while
`setMessagesAsSeen` and `maxAttachmentSize` are plain constants destructured
from the config module at load time.  The two configuration snapshots are
passed separately (`cfgBind` for bind or load time, `cfgNow` for event time)
so that a configuration change between the two is expressible.
-/

/-- The configuration fields the event router reads. -/
structure EventConfig where
  disabledCallbacks : List String
  setMessagesAsSeen : Bool
  maxAttachmentSize : Nat

/-- isEventEnabled from `src/utils.js`:
`!disabledCallbacks.includes(event)`. -/
def isEventEnabled (cfg : EventConfig) (event : String) : Bool :=
  !(cfg.disabledCallbacks.contains event)

/-- The event categories whose listener is bound inside an
`if (isEventEnabled(...))` guard in initializeEvents, in source order. -/
def gatedEventNames : List String :=
  ["auth_failure", "authenticated", "call", "change_state", "disconnected",
   "group_join", "group_leave", "group_admin_changed",
   "group_membership_request", "group_update", "loading_screen",
   "media_uploaded", "message_ack", "message_create", "message_reaction",
   "message_edit", "message_ciphertext", "message_revoke_everyone",
   "message_revoke_me", "ready", "contact_changed", "chat_removed",
   "chat_archived", "unread_count", "vote_update"]

/-- Sink category used when a listener fires: `auth_failure` reports under the
`status` category (lines 222-224); every other listener reports under its own
name. -/
def sinkCategory (c : String) : String :=
  if c = "auth_failure" then "status" else c

/-- The set of categories with a listener bound by initializeEvents, resolved
from the configuration in force when setup ran.  The `message` and `qr`
listeners are always bound. -/
def boundListeners (cfgBind : EventConfig) : List String :=
  gatedEventNames.filter (fun c => isEventEnabled cfgBind c) ++
    ["message", "qr"]

/-- The parts of an inbound `message` payload the handler inspects. -/
structure MessageInfo where
  /-- `message.hasMedia` -/
  hasMedia : Bool
  /-- `message._data?.size`; `none` models `_data` being undefined, in which
  case `undefined < maxAttachmentSize` is false -/
  dataSize : Option Nat
  /-- whether `message.downloadMedia()` fulfills; on rejection the error is
  logged and no `media` envelope is emitted (lines 316-318) -/
  downloadOk : Bool

/-- An event fired by the external client. -/
inductive SessionEvent
  /-- any of the uniformly handled categories of `gatedEventNames` -/
  | gated (category : String)
  /-- the inbound `message` event -/
  | message (m : MessageInfo)
  /-- the `qr` event -/
  | qr

/-- Sink invocations produced when one event fires on a handle whose listeners
were bound as `bound` (normally `boundListeners cfgBind`), with `cfgNow` the
configuration at event time.  A gated category with no bound listener produces
nothing.  The `message` handler (lines 306-327): when `isEventEnabled('message')`
holds now, it posts the `message` envelope to both sinks and, if the payload
has media of known size under `maxAttachmentSize` and `isEventEnabled('media')`
holds now, downloads the media and posts a derived `media` envelope; regardless
of all gates, when `setMessagesAsSeen` is configured a mark-seen
acknowledgment follows after a one-second delay (lines 322-326).  The `qr`
handler (lines 378-395) updates the stored QR code and posts to the sinks only
when `isEventEnabled('qr')` holds now. -/
def fireEvent (cfgBind cfgNow : EventConfig) (bound : List String)
    (sessionId : String) : SessionEvent → List Act
  | .gated c =>
    if c ∈ bound then
      [.webhook sessionId (sinkCategory c), .websocket sessionId (sinkCategory c)]
    else []
  | .message m =>
    (if isEventEnabled cfgNow "message" then
      [.webhook sessionId "message", .websocket sessionId "message"] ++
      (if m.hasMedia &&
          (match m.dataSize with
           | some s => decide (s < cfgBind.maxAttachmentSize)
           | none => false) then
        (if isEventEnabled cfgNow "media" then
          [.downloadMedia] ++
          (if m.downloadOk then
            [.webhook sessionId "media", .websocket sessionId "media"]
          else [])
        else [])
      else [])
    else []) ++
    (if cfgBind.setMessagesAsSeen then [.sendSeen] else [])
  | .qr =>
    if isEventEnabled cfgNow "qr" then
      [.webhook sessionId "qr", .websocket sessionId "qr"]
    else []

/-!
Concrete oracle instances used by the witnesses and counterexamples below.
-/

/-- A healthy client: initialize succeeds, every probe attempt responds, the
protocol state is CONNECTED, logout and destroy succeed, and the browser
reports itself disconnected at every poll. -/
def clientGood : Client :=
  ⟨.ok (), fun _ => .responds, .ok "CONNECTED", .ok (), .ok (),
   some (fun _ => false)⟩

/-- A client whose browser surface never settles the evaluate probe: every
attempt hangs past the one-second race timer, yet getState still reports
CONNECTED. -/
def clientHang : Client :=
  ⟨.ok (), fun _ => .hangs, .ok "CONNECTED", .ok (), .ok (),
   some (fun _ => false)⟩

/-- A connected client whose logout() rejects. -/
def clientLogoutFail : Client :=
  ⟨.ok (), fun _ => .responds, .ok "CONNECTED", .error "boom", .ok (),
   some (fun _ => false)⟩

/-- A client whose initialize() rejects. -/
def clientInitFail : Client :=
  ⟨.error "init failed", fun _ => .throws, .error "no state", .ok (), .ok (),
   none⟩

/-- State for the deleteSession branching counterexample: one registered
session with its folder on disk. -/
def stOneSession : SysState :=
  ⟨[("a", clientGood)], [["d"], ["d", "session-a"]]⟩

/-- State for the flush counterexamples: session `a` is registered, connected
and fails logout; session `b` is registered and healthy; both folders exist. -/
def stFlush : SysState :=
  ⟨[("a", clientLogoutFail), ("b", clientGood)],
   [["d"], ["d", "session-a"], ["d", "session-b"]]⟩

/-- Configuration with the inbound-message category disabled. -/
def cfgMsgOff : EventConfig := ⟨["message"], false, 100⟩

/-- Configuration with every category enabled. -/
def cfgAllOn : EventConfig := ⟨[], false, 100⟩

/-- Configuration with the `ready` category disabled. -/
def cfgReadyOff : EventConfig := ⟨["ready"], false, 100⟩

/-!
Helper lemmas about the registry.
-/

theorem registry_get_append_single (r : Registry) (id : String) (c : Client)
    (h : Registry.get r id = none) :
    Registry.get (r ++ [(id, c)]) id = some c := by
  induction r with
  | nil => simp [Registry.get]
  | cons p rest ih =>
    obtain ⟨k, v⟩ := p
    by_cases hk : k = id
    · simp [Registry.get, hk] at h
    · simp only [List.cons_append, Registry.get, hk, if_false] at h ⊢
      exact ih h

theorem registry_get_del_self (r : Registry) (id : String) :
    Registry.get (Registry.del r id) id = none := by
  induction r with
  | nil => rfl
  | cons p rest ih =>
    by_cases hk : p.1 = id
    · simpa [Registry.del, List.filter_cons, hk] using ih
    · simp only [Registry.del, List.filter_cons] at ih ⊢
      rw [show (p.1 != id) = true by simp [hk]]
      simpa [Registry.get, hk] using ih

theorem registry_get_eq_none_of_has_false (r : Registry) (id : String)
    (h : Registry.has r id = false) : Registry.get r id = none := by
  unfold Registry.has at h
  exact Option.not_isSome_iff_eq_none.mp (by simp [h])

/-- On an error result, deleteSessionFolder leaves the filesystem unchanged
and deletes nothing. -/
theorem deleteSessionFolder_error_frame (root : List String)
    (fsys : List (List String)) (id : String) (e : FolderError)
    (h : (deleteSessionFolder root fsys id).1 = .error e) :
    deleteSessionFolder root fsys id = (.error e, fsys) := by
  unfold deleteSessionFolder at h ⊢
  set t := sessionTarget root id with ht
  by_cases h1 : t ∈ fsys
  · by_cases h2 : root ∈ fsys
    · simp only [realpathFs, h1, h2, if_true] at h ⊢
      by_cases h3 : strictlyInside root t = true
      · simp [h3] at h
      · simp only [Bool.not_eq_true] at h3
        simp [h3] at h ⊢
        exact h
    · simp [realpathFs, h1, h2] at h ⊢
      exact h
  · simp [realpathFs, h1] at h ⊢
    exact h

/-- C1: setupSession adds a registry entry for an id only after the external
client initialize() has completed successfully; when initialize() rejects,
setupSession returns a failure result and the registry holds no entry for that
id, so no partially-registered state is retained. -/
theorem setupSession_registers_only_after_init (reg : Registry)
    (id : String) (c : Client) (hfree : Registry.has reg id = false) :
    (Registry.has (setupSession reg id c).reg id = true ↔
      c.initResult = .ok ()) ∧
    (∀ e, c.initResult = .error e →
      (setupSession reg id c).res.success = false ∧
      Registry.get (setupSession reg id c).reg id = none) := by
  have hget : Registry.get reg id = none :=
    registry_get_eq_none_of_has_false reg id hfree
  constructor
  · cases hinit : c.initResult with
    | ok u =>
      cases u
      simp [setupSession, hfree, hinit, hget, Registry.has, Registry.set,
        registry_get_append_single reg id c hget]
    | error e =>
      simp [setupSession, hfree, hinit, Registry.has, hget]
  · intro e he
    simp [setupSession, hfree, he, hget]

/-- Witness for C1: a client whose initialize() rejects leaves an empty
registry and a failure result. -/
theorem setupSession_registers_only_after_init_witness :
    (setupSession [] "s1" clientInitFail).res.success = false ∧
    Registry.get (setupSession [] "s1" clientInitFail).reg "s1" = none :=
  (setupSession_registers_only_after_init [] "s1" clientInitFail rfl).2
    "init failed" rfl

/-- C8: on an empty registry, setup succeeds and registers the handle; an
immediate second setup for the same id fails with a message containing
"already exists", leaves the registry (and the original handle) unchanged, and
performs no external call, in particular no new initialize. -/
theorem setupSession_scenarioA (c c2 : Client) (h : c.initResult = .ok ()) :
    (setupSession [] "s1" c).res.success = true ∧
    Registry.get (setupSession [] "s1" c).reg "s1" = some c ∧
    (setupSession (setupSession [] "s1" c).reg "s1" c2).res.success = false ∧
    (∃ pre post,
      (setupSession (setupSession [] "s1" c).reg "s1" c2).res.message =
        pre ++ "already exists" ++ post) ∧
    (setupSession (setupSession [] "s1" c).reg "s1" c2).reg =
      (setupSession [] "s1" c).reg ∧
    Registry.get (setupSession (setupSession [] "s1" c).reg "s1" c2).reg "s1" =
      some c ∧
    (setupSession (setupSession [] "s1" c).reg "s1" c2).trace = [] := by
  have e1 : (setupSession [] "s1" c).reg = [("s1", c)] := by
    simp [setupSession, Registry.has, Registry.get, Registry.set, h]
  have es : (setupSession [] "s1" c).res.success = true := by
    simp [setupSession, Registry.has, Registry.get, h]
  rw [e1]
  refine ⟨es, by simp [Registry.get], ?_, ?_, ?_, ?_, ?_⟩
  · simp [setupSession, Registry.has, Registry.get]
  · refine ⟨"Session ", " for: s1", ?_⟩
    simp [setupSession, Registry.has, Registry.get]
  · simp [setupSession, Registry.has, Registry.get]
  · simp [setupSession, Registry.has, Registry.get]
  · simp [setupSession, Registry.has, Registry.get]

/-- Witness for C8 with a concrete healthy client. -/
theorem setupSession_scenarioA_witness :
    (setupSession [] "s1" clientGood).res.success = true ∧
    (setupSession (setupSession [] "s1" clientGood).reg "s1"
      clientGood).res.success = false :=
  ⟨(setupSession_scenarioA clientGood clientGood rfl).1,
   (setupSession_scenarioA clientGood clientGood rfl).2.2.1⟩

/-- C3: when the resolved target of a session id is not strictly nested under
the resolved storage root, deleteSessionFolder rejects with the
directory-traversal error, the filesystem is unchanged, and nothing is
deleted. -/
theorem deleteSessionFolder_traversal_guard (root : List String)
    (fsys : List (List String)) (id : String)
    (ht : sessionTarget root id ∈ fsys) (hr : root ∈ fsys)
    (hout : strictlyInside root (sessionTarget root id) = false) :
    deleteSessionFolder root fsys id = (.error .traversal, fsys) := by
  simp [deleteSessionFolder, realpathFs, ht, hr, hout]

/-- Witness for C3: the id `../../../x` escapes the root `/d/s` to `/d/x`;
both paths exist, the call rejects with the traversal error and deletes
nothing. -/
theorem deleteSessionFolder_traversal_guard_witness :
    deleteSessionFolder ["d", "s"] [["d", "s"], ["d", "x"]] "../../../x" =
      (.error .traversal, [["d", "s"], ["d", "x"]]) :=
  deleteSessionFolder_traversal_guard ["d", "s"] [["d", "s"], ["d", "x"]]
    "../../../x" (by decide) (by decide) (by decide)

/-- Counterexample to C5: removing the folder of session `a` when
`/d/session-a` does not exist rejects with ENOENT (realpath on the target
fails before the forced rm is reached) instead of completing without error. -/
theorem deleteSessionFolder_absent_errors :
    deleteSessionFolder ["d"] [["d"]] "a" = (.error .enoent, [["d"]]) := by
  decide

/-- C5 as amended: on an already-absent folder, deleteSessionFolder raises an
ENOENT error (the pre-deletion realpath of the target rejects) rather than
completing silently; the filesystem is left unchanged and nothing is
deleted. -/
theorem deleteSessionFolder_absent_enoent (root : List String)
    (fsys : List (List String)) (id : String)
    (habs : sessionTarget root id ∉ fsys) :
    deleteSessionFolder root fsys id = (.error .enoent, fsys) := by
  simp [deleteSessionFolder, realpathFs, habs]

/-- Witness for the amended C5 at a concrete absent folder. -/
theorem deleteSessionFolder_absent_enoent_witness :
    deleteSessionFolder ["d"] [["d"], ["d", "session-b"]] "a" =
      (.error .enoent, [["d"], ["d", "session-b"]]) :=
  deleteSessionFolder_absent_enoent ["d"] [["d"], ["d", "session-b"]] "a"
    (by decide)

/-- Counterexample to C7: a browser surface that never responds to the
evaluate probe (every attempt hangs past the one-second race timer, which
resolves rather than rejects) still validates with success=true when getState
reports CONNECTED, so success does not require the surface to have responded
to the probe. -/
theorem validateSession_hang_success :
    (validateSession [("s1", clientHang)] "s1").success = true ∧
    clientHang.attempts = (fun _ => ProbeOutcome.hangs) ∧
    clientHang.stateResult = .ok "CONNECTED" :=
  ⟨rfl, rfl, rfl⟩

/-- C7 as amended: validateSession returns success=true exactly when the probe
loop completes (the page is not closed and no attempt in the three-attempt
budget throws before one attempt settles or hangs past the one-second race
timer, a hang counting as a pass) and getState reports the CONNECTED state.
The loop is total, so a hung attempt cannot block the caller beyond the race
bound, and a surface whose every attempt throws produces the failure result
"session closed" after the fixed three-attempt budget; the failure is
returned, never thrown. -/
theorem validateSession_success_iff (reg : Registry) (id : String)
    (client : Client) (h : Registry.get reg id = some client) :
    ((validateSession reg id).success = true ↔
      (probeLoop client.attempts 0 2 = none ∧
        client.stateResult = .ok "CONNECTED")) ∧
    (client.attempts = (fun _ => ProbeOutcome.throws) →
      validateSession reg id = ⟨false, none, "session closed"⟩) := by
  constructor
  · simp only [validateSession, h]
    cases hp : probeLoop client.attempts 0 2 with
    | some msg => simp [hp]
    | none =>
      cases hs : client.stateResult with
      | error e => simp
      | ok s =>
        by_cases hc : s = "CONNECTED"
        · subst hc; simp
        · simp [hc]
  · intro hatt
    simp [validateSession, h, hatt, probeLoop]

/-- Witness for the amended C7 with a healthy client. -/
theorem validateSession_success_iff_witness :
    (validateSession [("s1", clientGood)] "s1").success = true :=
  ((validateSession_success_iff [("s1", clientGood)] "s1" clientGood rfl).1).mpr
    ⟨rfl, rfl⟩

/-- Counterexample to C2: for a registered session whose validation failed
with message "browser tab closed" (a not-connected validation result),
deleteSession issues neither destroy nor logout, although the claim requires
destroy for every present-but-not-successful validation. -/
theorem deleteSession_no_destroy_on_other_failure :
    Registry.get stOneSession.reg "a" = some clientGood ∧
    (⟨false, none, "browser tab closed"⟩ : ValidationResult).success = false ∧
    Act.destroy "a" ∉
      (deleteSession ["d"] stOneSession "a"
        ⟨false, none, "browser tab closed"⟩).trace ∧
    Act.logout "a" ∉
      (deleteSession ["d"] stOneSession "a"
        ⟨false, none, "browser tab closed"⟩).trace := by
  refine ⟨rfl, rfl, ?_, ?_⟩ <;> decide

/-- C2 as amended: for a registered session, deleteSession issues logout
exactly when validation.success is true, and issues plain destroy exactly when
validation.success is false and validation.message is "session_not_connected";
for any other non-success validation of a present session neither call is
made. -/
theorem deleteSession_branch_selection (root : List String) (st : SysState)
    (id : String) (client : Client) (v : ValidationResult)
    (h : Registry.get st.reg id = some client) :
    (Act.logout id ∈ (deleteSession root st id v).trace ↔ v.success = true) ∧
    (Act.destroy id ∈ (deleteSession root st id v).trace ↔
      (v.success = false ∧ v.message = "session_not_connected")) := by
  cases hs : v.success with
  | true =>
    cases hl : client.logoutResult with
    | error e => simp [deleteSession, h, hs, hl]
    | ok u =>
      cases hb : client.pupBrowser with
      | none => simp [deleteSession, h, hs, hl, hb]
      | some f =>
        rcases hd : deleteSessionFolder root st.fsys id with ⟨res, fsys2⟩
        cases res with
        | ok rt => simp [deleteSession, h, hs, hl, hb, hd]
        | error fe => simp [deleteSession, h, hs, hl, hb, hd]
  | false =>
    by_cases hm : v.message = "session_not_connected"
    · cases hde : client.destroyResult with
      | error e => simp [deleteSession, h, hs, hm, hde]
      | ok u =>
        cases hb : client.pupBrowser with
        | none => simp [deleteSession, h, hs, hm, hde, hb]
        | some f =>
          rcases hd : deleteSessionFolder root st.fsys id with ⟨res, fsys2⟩
          cases res with
          | ok rt => simp [deleteSession, h, hs, hm, hde, hb, hd]
          | error fe => simp [deleteSession, h, hs, hm, hde, hb, hd]
    · cases hb : client.pupBrowser with
      | none => simp [deleteSession, h, hs, hm, hb]
      | some f =>
        rcases hd : deleteSessionFolder root st.fsys id with ⟨res, fsys2⟩
        cases res with
        | ok rt => simp [deleteSession, h, hs, hm, hb, hd]
        | error fe => simp [deleteSession, h, hs, hm, hb, hd]

/-- Witness for the amended C2: a successful validation leads to logout. -/
theorem deleteSession_branch_selection_witness :
    Act.logout "a" ∈
      (deleteSession ["d"] stOneSession "a"
        ⟨true, some "CONNECTED", "session_connected"⟩).trace :=
  ((deleteSession_branch_selection ["d"] stOneSession "a" clientGood
      ⟨true, some "CONNECTED", "session_connected"⟩ rfl).1).mpr rfl

/-- C10: deleteSession removes the id from the registry strictly before the
on-disk folder removal.  An error thrown by logout or destroy propagates with
the registry entry (and the filesystem) still in place; an error thrown by the
folder removal propagates with the registry no longer containing the id and
the folder still on disk (the teardown is not atomic and the registry state is
not restored). -/
theorem deleteSession_unregisters_before_folder_removal (root : List String)
    (st : SysState) (id : String) (client : Client) (v : ValidationResult)
    (h : Registry.get st.reg id = some client) :
    (v.success = true → ∀ e, client.logoutResult = .error e →
      (deleteSession root st id v).res = .error e ∧
      (deleteSession root st id v).st = st) ∧
    (v.success = false → v.message = "session_not_connected" →
      ∀ e, client.destroyResult = .error e →
      (deleteSession root st id v).res = .error e ∧
      (deleteSession root st id v).st = st) ∧
    (∀ f, client.pupBrowser = some f →
      (v.success = true → client.logoutResult = .ok ()) →
      (v.success = false → v.message = "session_not_connected" →
        client.destroyResult = .ok ()) →
      ∀ e, (deleteSessionFolder root st.fsys id).1 = .error e →
      (deleteSession root st id v).res = .error (folderErrName e) ∧
      Registry.get (deleteSession root st id v).st.reg id = none ∧
      (deleteSession root st id v).st.fsys = st.fsys) := by
  refine ⟨?_, ?_, ?_⟩
  · intro hs e hl
    simp [deleteSession, h, hs, hl]
  · intro hs hm e hde
    simp [deleteSession, h, hs, hm, hde]
  · intro f hb h1 h2 e hfd
    have hfr := deleteSessionFolder_error_frame root st.fsys id e hfd
    cases hs : v.success with
    | true =>
      simp [deleteSession, h, hs, h1 hs, hb, hfr, registry_get_del_self]
    | false =>
      by_cases hm : v.message = "session_not_connected"
      · simp [deleteSession, h, hs, hm, h2 hs hm, hb, hfr,
          registry_get_del_self]
      · simp [deleteSession, h, hs, hm, hb, hfr, registry_get_del_self]

/-- Witness for C10: the folder of session `a` is absent, so folder removal
errors after the registry entry was already removed; the error propagates, the
registry no longer holds the id, the filesystem is unchanged. -/
theorem deleteSession_unregisters_before_folder_removal_witness :
    (deleteSession ["d"] ⟨[("a", clientGood)], [["d"]]⟩ "a"
        ⟨false, none, "zzz"⟩).res = .error "ENOENT" ∧
    Registry.get (deleteSession ["d"] ⟨[("a", clientGood)], [["d"]]⟩ "a"
        ⟨false, none, "zzz"⟩).st.reg "a" = none ∧
    (deleteSession ["d"] ⟨[("a", clientGood)], [["d"]]⟩ "a"
        ⟨false, none, "zzz"⟩).st.fsys = [["d"]] :=
  (deleteSession_unregisters_before_folder_removal ["d"]
      ⟨[("a", clientGood)], [["d"]]⟩ "a" clientGood ⟨false, none, "zzz"⟩
      rfl).2.2
    (fun _ => false) rfl (fun _ => rfl) (fun _ _ => rfl) .enoent (by decide)

/-- Counterexample to C4: with two persisted session folders whose sessions
are both registered, a logout rejection while deleting the first folder makes
flushSessions rethrow that error; the second folder is neither validated nor
deleted (its session stays registered, no call is made for it, its folder
stays on disk), so a single item failure does abort the batch and propagates
to the caller. -/
theorem flushSessions_abort_on_first_error :
    (flushSessions ["d"] stFlush false).res = .error "boom" ∧
    ["d", "session-b"] ∈ (flushSessions ["d"] stFlush false).st.fsys ∧
    Act.terminateWebSocket "b" ∉ (flushSessions ["d"] stFlush false).trace ∧
    Registry.has (flushSessions ["d"] stFlush false).st.reg "b" = true := by
  refine ⟨?_, ?_, ?_, ?_⟩ <;> decide

/-- C4 as amended: flushSessions has no per-item error isolation.  As soon as
one matching folder's deleteSession rejects, the loop stops with that error
(which the outer catch logs and rethrows to the caller); the folders after it
in the enumeration are neither validated nor deleted. -/
theorem flushLoop_aborts_on_error (root : List String) (st : SysState)
    (donly : Bool) (file : String) (rest : List String) (id : String)
    (hp : parseSessionFolder file = some id)
    (hrun : (!donly || !(validateSession st.reg id).success) = true)
    (e : String) (st2 : SysState) (acts : List Act)
    (hdel : deleteSession root st id (validateSession st.reg id) =
      ⟨.error e, st2, acts⟩) :
    flushLoop root st donly (file :: rest) = ⟨.error e, st2, acts⟩ := by
  simp only [flushLoop, hp, hrun, if_true, hdel]

/-- Witness for the amended C4 at the concrete two-folder state. -/
theorem flushLoop_aborts_on_error_witness :
    flushLoop ["d"] stFlush false ["session-a", "session-b"] =
      ⟨.error "boom", stFlush,
       [Act.terminateWebSocket "a", Act.logout "a"]⟩ :=
  flushLoop_aborts_on_error ["d"] stFlush false "session-a" ["session-b"] "a"
    (by decide) (by decide) "boom" stFlush
    [Act.terminateWebSocket "a", Act.logout "a"] rfl

/-- Counterexample to C6: the inbound-message category is disabled in the
configuration at bind time, yet because the `message` listener is bound
unconditionally and re-checks `isEventEnabled` per event, a configuration
where the category is enabled at event time produces sink invocations for the
category on the same handle. -/
theorem eventGate_message_reevaluated :
    isEventEnabled cfgMsgOff "message" = false ∧
    fireEvent cfgMsgOff cfgAllOn (boundListeners cfgMsgOff) "s1"
        (SessionEvent.message ⟨false, none, true⟩) =
      [Act.webhook "s1" "message", Act.websocket "s1" "message"] := by
  refine ⟨by decide, by decide⟩

/-- C6 as amended: for every category other than the inbound-message and QR
categories, the enable gate is resolved once at listener-bind time: a category
disabled at setup has no listener and produces zero sink invocations for the
lifetime of the handle, whatever the configuration says at event time.  The
`message` and `qr` listeners are instead bound unconditionally and re-evaluate
the gate per event against the configuration current at event time. -/
theorem eventGate_bindtime_except_message_qr (cfgBind cfgNow : EventConfig)
    (sid c : String) (m : MessageInfo)
    (hc1 : c ≠ "message") (hc2 : c ≠ "qr")
    (hdis : isEventEnabled cfgBind c = false) :
    fireEvent cfgBind cfgNow (boundListeners cfgBind) sid (.gated c) = [] ∧
    (isEventEnabled cfgNow "message" = true →
      Act.webhook sid "message" ∈
        fireEvent cfgBind cfgNow (boundListeners cfgBind) sid (.message m)) ∧
    (isEventEnabled cfgNow "qr" = true →
      fireEvent cfgBind cfgNow (boundListeners cfgBind) sid .qr =
        [Act.webhook sid "qr", Act.websocket sid "qr"]) := by
  refine ⟨?_, ?_, ?_⟩
  · have hnotmem : c ∉ boundListeners cfgBind := by
      intro hmem
      simp [boundListeners, hdis, hc1, hc2] at hmem
    simp [fireEvent, hnotmem]
  · intro hm
    simp [fireEvent, hm]
  · intro hq
    simp [fireEvent, hq]

/-- Witness for the amended C6: with `ready` disabled at bind time, a `ready`
event produces no sink invocation even under a fully enabled event-time
configuration. -/
theorem eventGate_bindtime_except_message_qr_witness :
    fireEvent cfgReadyOff cfgAllOn (boundListeners cfgReadyOff) "s1"
      (SessionEvent.gated "ready") = [] :=
  (eventGate_bindtime_except_message_qr cfgReadyOff cfgAllOn "s1" "ready"
    ⟨false, none, true⟩ (by decide) (by decide) (by decide)).1

/-- Counterexample to C9: an inbound message with media whose size is under
the configured ceiling triggers no attachment fetch when the inbound-message
category is disabled, so the fetch is suppressible by the category gate. -/
theorem mediaFetch_suppressed_by_gate :
    (0 : Nat) < cfgMsgOff.maxAttachmentSize ∧
    Act.downloadMedia ∉
      fireEvent cfgMsgOff cfgMsgOff (boundListeners cfgMsgOff) "s1"
        (SessionEvent.message ⟨true, some 0, true⟩) := by
  refine ⟨by decide, by decide⟩

/-- C9 as amended: for an inbound message, the attachment fetch happens
exactly when the inbound-message category is enabled at event time, the
message has media, its payload size is known and under the configured
ceiling, and the derived `media` category is enabled — disabling the
inbound-message (or `media`) category suppresses it.  Only the mark-seen
acknowledgment is independent of the category gates: it is sent, after the
fixed one-second delay, exactly when `setMessagesAsSeen` is configured. -/
theorem messageSideEffects_gating (cfgBind cfgNow : EventConfig)
    (bound : List String) (sid : String) (m : MessageInfo) :
    (Act.downloadMedia ∈ fireEvent cfgBind cfgNow bound sid (.message m) ↔
      (isEventEnabled cfgNow "message" = true ∧ m.hasMedia = true ∧
       (∃ s, m.dataSize = some s ∧ s < cfgBind.maxAttachmentSize) ∧
       isEventEnabled cfgNow "media" = true)) ∧
    (Act.sendSeen ∈ fireEvent cfgBind cfgNow bound sid (.message m) ↔
      cfgBind.setMessagesAsSeen = true) := by
  cases hseen : cfgBind.setMessagesAsSeen with
  | true =>
    refine ⟨?_, by simp [fireEvent, hseen]⟩
    cases hmsg : isEventEnabled cfgNow "message" with
    | false => simp [fireEvent, hmsg, hseen]
    | true =>
      cases hm : m.hasMedia with
      | false => simp [fireEvent, hmsg, hm, hseen]
      | true =>
        cases hd : m.dataSize with
        | none => simp [fireEvent, hmsg, hm, hd, hseen]
        | some s =>
          by_cases hsize : s < cfgBind.maxAttachmentSize
          · cases hmed : isEventEnabled cfgNow "media" with
            | false => simp [fireEvent, hmsg, hm, hd, hsize, hmed, hseen]
            | true =>
              cases hok : m.downloadOk with
              | false =>
                simp [fireEvent, hmsg, hm, hd, hsize, hmed, hok, hseen]
              | true =>
                simp [fireEvent, hmsg, hm, hd, hsize, hmed, hok, hseen]
          · simp [fireEvent, hmsg, hm, hd, hsize, hseen]
  | false =>
    refine ⟨?_, ?_⟩
    · cases hmsg : isEventEnabled cfgNow "message" with
      | false => simp [fireEvent, hmsg, hseen]
      | true =>
        cases hm : m.hasMedia with
        | false => simp [fireEvent, hmsg, hm, hseen]
        | true =>
          cases hd : m.dataSize with
          | none => simp [fireEvent, hmsg, hm, hd, hseen]
          | some s =>
            by_cases hsize : s < cfgBind.maxAttachmentSize
            · cases hmed : isEventEnabled cfgNow "media" with
              | false => simp [fireEvent, hmsg, hm, hd, hsize, hmed, hseen]
              | true =>
                cases hok : m.downloadOk with
                | false =>
                  simp [fireEvent, hmsg, hm, hd, hsize, hmed, hok, hseen]
                | true =>
                  simp [fireEvent, hmsg, hm, hd, hsize, hmed, hok, hseen]
            · simp [fireEvent, hmsg, hm, hd, hsize, hseen]
    · simp only [fireEvent, hseen]
      cases hmsg : isEventEnabled cfgNow "message" with
      | false => simp [hmsg]
      | true =>
        cases hm : m.hasMedia with
        | false => simp [hmsg, hm]
        | true =>
          cases hd : m.dataSize with
          | none => simp [hmsg, hm, hd]
          | some s =>
            by_cases hsize : s < cfgBind.maxAttachmentSize
            · cases hmed : isEventEnabled cfgNow "media" with
              | false => simp [hmsg, hm, hd, hsize, hmed]
              | true =>
                cases hok : m.downloadOk with
                | false => simp [hmsg, hm, hd, hsize, hmed, hok]
                | true => simp [hmsg, hm, hd, hsize, hmed, hok]
            · simp [hmsg, hm, hd, hsize]
